/-
Verification of the Noor_Chat natural-language-query core.

Shallow embedding of:
  * `QueryEngine` (`src/lib/database/query-engine.ts`):
    `getDetailedSchemaFromRepository`, `executeQuery`;
  * the orchestrator `naturalLanguageQueryOrchestrator`
    (`src/app/api/query/route.ts`): tool declarations, system instruction,
    the bounded agentic loop, tool dispatch, and the four result shapes.

Modelling conventions:
  * JavaScript values exchanged with the model / the database are modelled
    by the inductive `Json`; a JS `undefined` (absent property) is an
    `Option _` `none`.
  * External effects are explicit: the Gemini fetch is an oracle
    `Nat → FetchOutcome` indexed by the turn counter; the Supabase
    `rpc('execute_sql', …)` is an oracle `String → RpcOutcome`; the list of
    SQL strings handed to the rpc oracle is returned as a log, as is the
    list of request bodies sent to the LLM.
  * A thrown JS exception is `Except.error` with the exception message.
  * Wall-clock durations (`Date.now()` differences) are modelled as `0`:
    no claim concerns timing values, only which fields are present.
-/
import Mathlib

namespace NoorChat

/-- JSON/JS values (the data exchanged with Gemini and Supabase). -/
inductive Json where
  | null : Json
  | bool (b : Bool) : Json
  | num (n : Int) : Json
  | str (s : String) : Json
  | arr (elems : List Json) : Json
  | obj (fields : List (String × Json)) : Json

/-- JS property read `v[k]` on an object; `none` models `undefined`.
Non-object primitives have no own properties. -/
def Json.getField : Json → String → Option Json
  | .obj fields, k => fields.lookup k
  | _, _ => none

/-- JS truthiness of a value. -/
def Json.truthy : Json → Bool
  | .null => false
  | .bool b => b
  | .num n => n != 0
  | .str s => s ≠ ""
  | .arr _ => true
  | .obj _ => true

/-- Escape one character for a JSON string literal. -/
def escapeChar (c : Char) : String :=
  if c = '"' then "\\\"" else if c = '\\' then "\\\\" else String.singleton c

/-- Escape a string for a JSON string literal. -/
def escapeString (s : String) : String :=
  String.join (s.toList.map escapeChar)

mutual
/-- `JSON.stringify` (model): deterministic rendering of a `Json` value. -/
def Json.stringify : Json → String
  | .null => "null"
  | .bool true => "true"
  | .bool false => "false"
  | .num n => toString n
  | .str s => "\"" ++ escapeString s ++ "\""
  | .arr elems => "[" ++ String.intercalate "," (stringifyList elems) ++ "]"
  | .obj fields => "\x7b" ++ String.intercalate "," (stringifyFields fields) ++ "\x7d"

/-- Render a list of JSON values. -/
def stringifyList : List Json → List String
  | [] => []
  | v :: vs => Json.stringify v :: stringifyList vs

/-- Render the fields of a JSON object. -/
def stringifyFields : List (String × Json) → List String
  | [] => []
  | (k, v) :: fs => ("\"" ++ escapeString k ++ "\":" ++ Json.stringify v) :: stringifyFields fs
end

/-! ## JS string builtins

The source uses the JS builtins `trim`, `toLowerCase`, `startsWith`. They
are modelled character-wise (ASCII case folding and ASCII whitespace; the
strings the gate compares against are ASCII). -/

/-- Whitespace for `trim`. -/
def isWhitespaceChar (c : Char) : Bool :=
  c = ' ' || c = '\t' || c = '\n' || c = '\r'

/-- JS `String.prototype.trim`. -/
def jsTrim (s : String) : String :=
  String.mk (((s.data.dropWhile isWhitespaceChar).reverse.dropWhile isWhitespaceChar).reverse)

/-- JS `String.prototype.toLowerCase`. -/
def jsToLower (s : String) : String :=
  String.mk (s.data.map Char.toLower)

/-- JS `String.prototype.startsWith`. -/
def jsStartsWith (s pre : String) : Bool :=
  pre.data.isPrefixOf s.data

/-! ## QueryEngine (`src/lib/database/query-engine.ts`) -/

/-- `DetailedTableSchema` of `query-engine.ts`: one entry of the in-memory
schema repository loaded from `DB as JSON.txt`. -/
structure DetailedTableSchema where
  schema : String
  table : String
  columns : List Json

/-- `QueryResult` of `query-engine.ts`. Optional fields are `Option`:
`none` models an absent (`undefined`) property. -/
structure QueryResult where
  success : Bool
  data : Option Json := none
  rowCount : Option Nat := none
  error : Option String := none
  executionTime : Option Nat := none

/-- Outcome of `supabase.rpc('execute_sql', { sql_query: sql })`:
resolved with `error` null and the given `data` (`none` = JS null);
resolved with a truthy `error` whose `.message` is as given
(`none` = no usable message, so the `||` default applies);
or the awaited promise threw (`none` = a non-`Error` was thrown). -/
inductive RpcOutcome where
  | ok (data : Option Json) : RpcOutcome
  | err (message : Option String) : RpcOutcome
  | thrown (message : Option String) : RpcOutcome

/-- `QueryEngine.getDetailedSchemaFromRepository`: filter the loaded
repository down to the entries whose table name equals a requested name
case-insensitively. (The not-loaded guard cannot fire in this model: the
repository list is always present.) -/
def getDetailedSchemaFromRepository (detailedSchema : List DetailedTableSchema)
    (tables : List String) : List DetailedTableSchema :=
  let lowercasedTables := tables.map (fun t => jsToLower t)
  detailedSchema.filter (fun tableInfo => lowercasedTables.contains (jsToLower tableInfo.table))

/-- `error.message || 'Query execution failed'` (JS `||` on a possibly
absent / empty message). -/
def messageOrDefault (m : Option String) (dflt : String) : String :=
  match m with
  | some s => if s = "" then dflt else s
  | none => dflt

/-- `QueryEngine.executeQuery`. Returns the `QueryResult` together with the
list of SQL strings dispatched to the external rpc service (empty when the
prefix gate rejects). Follows the source line by line:
trim + lower-case, the `select`/`with` `startsWith` gate, the rpc call,
`data || []`, `Array.isArray(data) ? data.length : 0`, and the catch-all. -/
def executeQuery (rpc : String → RpcOutcome) (sql : String) :
    QueryResult × List String :=
  let trimmedSql := jsToLower (jsTrim sql)
  if ¬ (jsStartsWith trimmedSql "select" || jsStartsWith trimmedSql "with") then
    ({ success := false,
       error := some "Only SELECT and WITH queries are allowed for security reasons" }, [])
  else
    match rpc sql with
    | .err m =>
        ({ success := false, error := some (messageOrDefault m "Query execution failed") }, [sql])
    | .thrown m =>
        ({ success := false, error := some (messageOrDefault m "Unknown query error"),
           executionTime := some 0 }, [sql])
    | .ok data =>
        ({ success := true,
           data := some (match data with
             | some j => if j.truthy then j else Json.arr []
             | none => Json.arr []),
           rowCount := some (match data with
             | some (.arr xs) => xs.length
             | _ => 0),
           executionTime := some 0 }, [sql])

/-! ## Orchestrator (`src/app/api/query/route.ts`) -/

/-- A conversation entry as built by the orchestrator: every history entry
(and the system instruction) is a `\x7b role, parts: [\x7b text \x7d] \x7d`
object with a single text part. -/
structure Turn where
  role : String
  text : String
deriving DecidableEq

/-- A `functionCall` part of a Gemini candidate: tool name plus the JS
`args` value (`none` models an absent `args`). -/
structure FunctionCall where
  name : String
  args : Option Json

/-- One part of a Gemini candidate content: optional text, optional
function call (either may be absent). -/
structure Part where
  text : Option String := none
  functionCall : Option FunctionCall := none

/-- Outcome of one `fetch` to the Gemini endpoint: a non-ok HTTP status, or
an ok response whose first candidate has the given parts (a response with
no candidates or no parts is `ok []`, matching the `|| []` default). -/
inductive FetchOutcome where
  | httpError (status : Nat) : FetchOutcome
  | ok (parts : List Part) : FetchOutcome

/-- A property of an object schema in a tool declaration (name ↦ type). -/
structure SchemaProp where
  name : String
  type : String
deriving DecidableEq

/-- An object schema of a tool declaration (properties + required list). -/
structure ObjectSchema where
  properties : List SchemaProp
  required : List String
deriving DecidableEq

/-- One function declaration of `toolDeclarations` in `route.ts`. -/
structure ToolDecl where
  name : String
  description : String
  parameters : ObjectSchema
  responseSchema : ObjectSchema
deriving DecidableEq

/-- One element of the `tools` array: a group of function declarations. -/
structure ToolGroup where
  functionDeclarations : List ToolDecl
deriving DecidableEq

/-- The tool declarations built inline in `route.ts` (lines 80–139):
exactly three functions — `get_detailed_schema`, `execute_sql`,
`ask_clarifying_question`. -/
def toolDeclarations : List ToolGroup :=
  [⟨[
    { name := "get_detailed_schema",
      description := "Get detailed schema for specific tables. Response must be strict JSON.",
      parameters := ⟨[⟨"tables", "array"⟩], ["tables"]⟩,
      responseSchema := ⟨[⟨"detailed_schema", "array"⟩], ["detailed_schema"]⟩ },
    { name := "execute_sql",
      description := "Execute a SQL query on the database. Response must be strict JSON.",
      parameters := ⟨[⟨"sql", "string"⟩], ["sql"]⟩,
      responseSchema := ⟨[⟨"query_result", "object"⟩], ["query_result"]⟩ },
    { name := "ask_clarifying_question",
      description := "Ask the user for clarification if needed. Response must be strict JSON.",
      parameters := ⟨[⟨"question", "string"⟩], ["question"]⟩,
      responseSchema := ⟨[⟨"clarification", "string"⟩], ["clarification"]⟩ }
  ]⟩]

/-- A function declaration of `aiTools` in `src/lib/ai-tools.ts`
(no response schema in that module). -/
structure FunctionDeclaration where
  name : String
  description : String
  parameters : ObjectSchema

/-- `aiTools` from `src/lib/ai-tools.ts`: four declarations, including
`refine_query`. The module is imported by `route.ts` but never referenced
in the orchestrator body. -/
def aiTools : List FunctionDeclaration :=
  [ { name := "get_detailed_schema",
      description := "Use this tool to request the detailed schema (including all columns, types, and keys) for specific tables when you need more information to construct a query. Only request details for tables you have identified as relevant from the worldview map.",
      parameters := ⟨[⟨"tables", "array"⟩, ⟨"reason", "string"⟩], ["tables", "reason"]⟩ },
    { name := "execute_sql",
      description := "Use this tool to execute a SQL query against the database. This should be one of the last steps.",
      parameters := ⟨[⟨"sql", "string"⟩], ["sql"]⟩ },
    { name := "ask_clarifying_question",
      description := "Use this tool when the user\x27s request is ambiguous or too broad. Ask a specific question to get the information needed to proceed.",
      parameters := ⟨[⟨"question", "string"⟩], ["question"]⟩ },
    { name := "refine_query",
      description := "Use this tool when the initial results are incomplete or suggest a better query is needed. This will restart the planning process with a more specific goal.",
      parameters := ⟨[⟨"new_question", "string"⟩], ["new_question"]⟩ } ]

/-- The generation parameters of the outgoing request (`route.ts` 156–162);
the fractional temperatures are exact rationals. -/
structure GenerationConfig where
  temperature : ℚ
  maxOutputTokens : Nat
  topP : ℚ
  topK : Nat
  responseMimeType : String
deriving DecidableEq

/-- The fixed `generationConfig` of every request. -/
def generationConfig : GenerationConfig :=
  { temperature := 7/10, maxOutputTokens := 1024, topP := 8/10, topK := 40,
    responseMimeType := "application/json" }

/-- The system instruction `Turn` (`route.ts` 72–77). -/
def systemInstruction : Turn :=
  { role := "system",
    text := "You are a world-class data analysis agent. Always use the available tools to interact with the database and analyze data. Never assume or fabricate results. For any database action, always call the appropriate tool (functionCall) and wait for the tool response before continuing. All tool results and final answers must be returned in strict JSON format. Use the agentic multi-turn protocol: 1) Plan, 2) Request details, 3) Output SQL, 4) Analyze results. If you need clarification, call ask_clarifying_question. Never skip steps or respond with only explanations. Example final answer: \x7b\"status\": \"final_response\", \"analysis\": \"...\"\x7d" }

/-- The body of one request to the Gemini endpoint (`route.ts` 154–164). -/
structure RequestBody where
  contents : List Turn
  generationConfig : GenerationConfig
  tools : List ToolGroup
deriving DecidableEq

/-- Build the request body for the current history: system instruction
first, then the full history, plus the fixed config and tools. -/
def mkRequestBody (history : List Turn) : RequestBody :=
  { contents := systemInstruction :: history,
    generationConfig := generationConfig,
    tools := toolDeclarations }

/-- The maximum number of loop iterations (`route.ts` line 67). -/
def MAX_TURNS : Nat := 6

/-- `parts.map(p => p.text).filter(Boolean).join('\n')`: the concatenated
text of a candidate, skipping absent and empty texts. -/
def lastResponseTextOf (parts : List Part) : String :=
  String.intercalate "\n" ((parts.filterMap Part.text).filter (fun s => s ≠ ""))

/-- The first part carrying a `functionCall` (the dispatch `for` loop
breaks after handling the first one). -/
def firstToolCall (parts : List Part) : Option FunctionCall :=
  parts.findSome? Part.functionCall

/-- JS property read `v[k]` where `v` itself may be `undefined`: reading a
property of `undefined` throws a `TypeError`; otherwise the property value
(possibly `undefined` = `none`). -/
def jsGetField (v : Option Json) (k : String) : Except String (Option Json) :=
  match v with
  | none => .error ("TypeError: Cannot read properties of undefined (reading " ++ k ++ ")")
  | some w => .ok (w.getField k)

/-- Interpret a JS array value as a list of strings, or `none` if it is not
an array of strings (in which case `tables.map(t => t.toLowerCase())`
would throw). -/
def allStrings : List Json → Option (List String)
  | [] => some []
  | .str s :: rest => (allStrings rest).map (fun ss => s :: ss)
  | _ => none

/-- Serialize a schema entry for the tool-result turn. -/
def DetailedTableSchema.toJson (e : DetailedTableSchema) : Json :=
  .obj [("schema", .str e.schema), ("table", .str e.table), ("columns", .arr e.columns)]

/-- A present field of a serialized object; an absent (`undefined`) field
is omitted by `JSON.stringify`. -/
def optField (k : String) : Option Json → List (String × Json)
  | none => []
  | some v => [(k, v)]

/-- Serialize a `QueryResult` for the tool-result turn (absent optional
fields omitted, as `JSON.stringify` does for `undefined`). -/
def QueryResult.toJson (r : QueryResult) : Json :=
  .obj ([("success", .bool r.success)]
    ++ optField "data" r.data
    ++ optField "rowCount" (r.rowCount.map (fun n => Json.num n))
    ++ optField "error" (r.error.map Json.str)
    ++ optField "executionTime" (r.executionTime.map (fun n => Json.num n)))

/-- The result of one invocation of the orchestrator, one constructor per
`return` site of `naturalLanguageQueryOrchestrator`:
`finalAnswer v` = `return parsed` (the parsed JSON value itself);
`clarificationNeeded t` = the clarification object with `text = args.question`;
`maxTurnsReached t` = the max-turns object with the last history text;
`protocolError raw` = the non-JSON protocol-violation object. -/
inductive OrchResult where
  | finalAnswer (value : Json) : OrchResult
  | clarificationNeeded (text : Option Json) : OrchResult
  | maxTurnsReached (text : Option String) : OrchResult
  | protocolError (raw : String) : OrchResult

/-- The JS value each orchestrator result stands for — exactly the object
built at the corresponding `return` site. `finalAnswer v` is `v` itself:
the code returns the parsed JSON unwrapped. -/
def OrchResult.toJson : OrchResult → Json
  | .finalAnswer v => v
  | .clarificationNeeded t =>
      .obj ([("status", .str "clarification_needed")] ++ optField "text" t)
  | .maxTurnsReached t =>
      .obj ([("status", .str "max_turns_reached")] ++ optField "text" (t.map Json.str))
  | .protocolError raw =>
      .obj [("status", .str "error"),
            ("error", .str "Non-JSON response received from Gemini. Protocol violation."),
            ("raw", .str raw)]

/-- What handling one tool call produces: terminate with the clarification
result, or a tool-result text to append to the history. -/
inductive DispatchOutcome where
  | clarify (text : Option Json) : DispatchOutcome
  | toolResult (text : String) : DispatchOutcome

/-- The orchestrator environment: the external collaborators of one run.
`jsonParse` is the platform `JSON.parse` (`none` = parse failure);
`detailedSchema` is the loaded repository; `rpc` the Supabase rpc;
`worldviewMap` the loaded worldview map. -/
structure OrchEnv where
  jsonParse : String → Option Json
  detailedSchema : List DetailedTableSchema
  rpc : String → RpcOutcome
  worldviewMap : Json

/-- Handle one `functionCall` (`route.ts` 195–219): the known tools and
the unknown-tool fallback. A `get_detailed_schema` call whose `args` lack
a `tables` array throws (the `.map` / `.toLowerCase` TypeError inside
`getDetailedSchemaFromRepository` is not caught anywhere in the
orchestrator). An `execute_sql` call with a non-string `sql` does not
throw: `sql.trim()` sits inside `executeQuery`'s `try`, whose catch turns
the TypeError into a failure `QueryResult`. -/
def dispatchTool (env : OrchEnv) (call : FunctionCall) : Except String DispatchOutcome :=
  if call.name = "get_detailed_schema" then
    match jsGetField call.args "tables" with
    | .error e => .error e
    | .ok (some (.arr elems)) =>
        match allStrings elems with
        | some tables =>
            .ok (.toolResult (Json.stringify (.obj [("detailed_schema",
              .arr ((getDetailedSchemaFromRepository env.detailedSchema tables).map
                DetailedTableSchema.toJson))])))
        | none => .error "TypeError: t.toLowerCase is not a function"
    | .ok _ => .error "TypeError: tables.map is not a function"
  else if call.name = "execute_sql" then
    match jsGetField call.args "sql" with
    | .error e => .error e
    | .ok (some (.str sql)) =>
        .ok (.toolResult (Json.stringify (.obj [("query_result",
          (executeQuery env.rpc sql).1.toJson)])))
    | .ok _ =>
        .ok (.toolResult (Json.stringify (.obj [("query_result",
          QueryResult.toJson
            { success := false,
              error := some "TypeError: sql.trim is not a function",
              executionTime := some 0 })])))
  else if call.name = "ask_clarifying_question" then
    match jsGetField call.args "question" with
    | .error e => .error e
    | .ok questionField => .ok (.clarify questionField)
  else
    .ok (.toolResult (Json.stringify (.obj [("error",
      .str ("Unknown tool: " ++ call.name))])))

/-- `history[history.length - 1]?.parts?.[0]?.text` at loop exit. -/
def lastTurnText (history : List Turn) : Option String :=
  history.getLast?.map Turn.text

/-- The `while (turn < MAX_TURNS)` loop (`route.ts` 151–234), as structural
recursion on the remaining iterations `fuel = MAX_TURNS - turn` (the loop
counter `turn` also indexes the oracle). Returns the result — or the
thrown exception — together with the log of request bodies sent to the
Gemini endpoint, in order. -/
def orchLoop (env : OrchEnv) (oracle : Nat → FetchOutcome) :
    Nat → Nat → List Turn → Except String OrchResult × List RequestBody
  | 0, _, history => (.ok (.maxTurnsReached (lastTurnText history)), [])
  | fuel + 1, turn, history =>
      let body := mkRequestBody history
      match oracle turn with
      | .httpError status => (.error ("Gemini API error: " ++ toString status), [body])
      | .ok parts =>
          match firstToolCall parts with
          | some call =>
              match dispatchTool env call with
              | .error e => (.error e, [body])
              | .ok (.clarify text) => (.ok (.clarificationNeeded text), [body])
              | .ok (.toolResult toolResultText) =>
                  let next := orchLoop env oracle fuel (turn + 1)
                    (history ++ [{ role := "model", text := toolResultText }])
                  (next.1, body :: next.2)
          | none =>
              match env.jsonParse (lastResponseTextOf parts) with
              | some parsed => (.ok (.finalAnswer parsed), [body])
              | none => (.ok (.protocolError (lastResponseTextOf parts)), [body])

/-- `naturalLanguageQueryOrchestrator` (`route.ts` 56–241): push the
worldview-map + question turn onto the initial history, then run the loop
from `turn = 0` with `MAX_TURNS` iterations available. (The missing-API-key
guard is modelled as satisfied: a run presupposes a configured key.) -/
def naturalLanguageQueryOrchestrator (env : OrchEnv) (oracle : Nat → FetchOutcome)
    (question : String) (initialHistory : List Turn) :
    Except String OrchResult × List RequestBody :=
  let history := initialHistory ++
    [{ role := "user",
       text := "Worldview Map: " ++ Json.stringify env.worldviewMap
         ++ "\nQuestion: " ++ question }]
  orchLoop env oracle MAX_TURNS 0 history

/-! ## Loop lemmas -/

/-- One unfolding of the loop body. -/
theorem orchLoop_succ (env : OrchEnv) (oracle : Nat → FetchOutcome)
    (fuel turn : Nat) (history : List Turn) :
    orchLoop env oracle (fuel + 1) turn history =
      match oracle turn with
      | .httpError status =>
          (.error ("Gemini API error: " ++ toString status), [mkRequestBody history])
      | .ok parts =>
          match firstToolCall parts with
          | some call =>
              match dispatchTool env call with
              | .error e => (.error e, [mkRequestBody history])
              | .ok (.clarify text) =>
                  (.ok (.clarificationNeeded text), [mkRequestBody history])
              | .ok (.toolResult toolResultText) =>
                  ((orchLoop env oracle fuel (turn + 1)
                      (history ++ [{ role := "model", text := toolResultText }])).1,
                   mkRequestBody history ::
                     (orchLoop env oracle fuel (turn + 1)
                       (history ++ [{ role := "model", text := toolResultText }])).2)
          | none =>
              match env.jsonParse (lastResponseTextOf parts) with
              | some parsed => (.ok (.finalAnswer parsed), [mkRequestBody history])
              | none =>
                  (.ok (.protocolError (lastResponseTextOf parts)), [mkRequestBody history]) := by
  rfl

/-- The loop performs at most `fuel` round-trips to the LLM. -/
theorem orchLoop_log_length_le (env : OrchEnv) (oracle : Nat → FetchOutcome) :
    ∀ (fuel turn : Nat) (history : List Turn),
      (orchLoop env oracle fuel turn history).2.length ≤ fuel := by
  intro fuel
  induction fuel with
  | zero => intro turn history; simp [orchLoop]
  | succ n ih =>
      intro turn history
      rw [orchLoop_succ]
      split
      · simp
      · split
        · split
          · simp
          · simp
          · simpa using ih (turn + 1) _
        · split <;> simp

/-- Whenever the loop still has fuel, the first logged request carries the
current history. -/
theorem orchLoop_log_head (env : OrchEnv) (oracle : Nat → FetchOutcome)
    (fuel turn : Nat) (history : List Turn) (hf : 0 < fuel) :
    (orchLoop env oracle fuel turn history).2.head? = some (mkRequestBody history) := by
  obtain ⟨n, rfl⟩ : ∃ n, fuel = n + 1 := ⟨fuel - 1, by omega⟩
  rw [orchLoop_succ]
  split
  · rfl
  · split
    · split <;> rfl
    · split <;> rfl

/-- Every logged request is `mkRequestBody` of some history. -/
theorem orchLoop_log_shape (env : OrchEnv) (oracle : Nat → FetchOutcome) :
    ∀ (fuel turn : Nat) (history : List Turn) (b : RequestBody),
      b ∈ (orchLoop env oracle fuel turn history).2 → ∃ h, b = mkRequestBody h := by
  intro fuel
  induction fuel with
  | zero => intro turn history b hb; simp [orchLoop] at hb
  | succ n ih =>
      intro turn history b hb
      rw [orchLoop_succ] at hb
      split at hb
      · simp at hb; exact ⟨history, hb⟩
      · split at hb
        · split at hb
          · simp at hb; exact ⟨history, hb⟩
          · simp at hb; exact ⟨history, hb⟩
          · simp at hb
            rcases hb with hb | hb
            · exact ⟨history, hb⟩
            · exact ih _ _ b hb
        · split at hb
          · simp at hb; exact ⟨history, hb⟩
          · simp at hb; exact ⟨history, hb⟩

/-- Consecutive logged requests differ by exactly one appended turn. -/
theorem orchLoop_log_append_only (env : OrchEnv) (oracle : Nat → FetchOutcome) :
    ∀ (fuel turn : Nat) (history : List Turn),
      List.Chain' (fun a b : RequestBody => ∃ t, b.contents = a.contents ++ [t])
        (orchLoop env oracle fuel turn history).2 := by
  intro fuel
  induction fuel with
  | zero => intro turn history; simp [orchLoop]
  | succ n ih =>
      intro turn history
      rw [orchLoop_succ]
      split
      · simp
      · split
        · split
          · simp
          · simp
          · rename_i txt hdisp
            rw [List.chain'_cons']
            refine ⟨?_, ih (turn + 1) _⟩
            intro y hy
            rcases Nat.eq_zero_or_pos n with hn | hn
            · subst hn; simp [orchLoop] at hy
            · rw [orchLoop_log_head env oracle n (turn + 1) _ hn] at hy
              cases hy
              exact ⟨{ role := "model", text := txt }, by simp [mkRequestBody]⟩
        · split <;> simp

/-- An LLM answer that makes the loop continue: an ok response whose first
tool call dispatches to a tool-result turn (e.g. any well-formed
`execute_sql` or `get_detailed_schema` call, or an unknown tool). -/
def continuesWithTool (env : OrchEnv) (f : FetchOutcome) : Prop :=
  ∃ parts call txt, f = .ok parts ∧ firstToolCall parts = some call ∧
    dispatchTool env call = .ok (.toolResult txt)

/-- Against an LLM that requests a tool on every turn, the loop burns all
its fuel and ends in the max-turns outcome. -/
theorem orchLoop_always_tool (env : OrchEnv) (oracle : Nat → FetchOutcome)
    (halways : ∀ n, continuesWithTool env (oracle n)) :
    ∀ (fuel turn : Nat) (history : List Turn),
      (∃ t, (orchLoop env oracle fuel turn history).1 = .ok (.maxTurnsReached t)) ∧
      (orchLoop env oracle fuel turn history).2.length = fuel := by
  intro fuel
  induction fuel with
  | zero => intro turn history; exact ⟨⟨lastTurnText history, rfl⟩, rfl⟩
  | succ n ih =>
      intro turn history
      obtain ⟨parts, call, txt, hok, hfirst, hdisp⟩ := halways turn
      rw [orchLoop_succ]
      simp only [hok, hfirst, hdisp]
      obtain ⟨⟨t, ht⟩, hlen⟩ := ih (turn + 1) (history ++ [{ role := "model", text := txt }])
      exact ⟨⟨t, ht⟩, by simpa using hlen⟩

/-! ## Theorems -/

/-- C2: for every input string `sql` whose trimmed, case-folded text does
not begin with `select` or `with`, `executeQuery` returns `success = false`
(with the fixed security message) and its rpc-dispatch log is empty: the
external SQL execution service is not contacted. -/
theorem executeQuery_gate_rejects (rpc : String → RpcOutcome) (sql : String)
    (h : (jsStartsWith (jsToLower (jsTrim sql)) "select"
          || jsStartsWith (jsToLower (jsTrim sql)) "with") = false) :
    executeQuery rpc sql =
      ({ success := false,
         error := some "Only SELECT and WITH queries are allowed for security reasons" }, []) := by
  simp [executeQuery, h]

/-- Witness for C2: `"DROP TABLE x"` fails the prefix check and is rejected
without any rpc dispatch. -/
theorem executeQuery_gate_rejects_witness :
    (jsStartsWith (jsToLower (jsTrim "DROP TABLE x")) "select"
      || jsStartsWith (jsToLower (jsTrim "DROP TABLE x")) "with") = false ∧
    executeQuery (fun _ => RpcOutcome.ok none) "DROP TABLE x"
      = ({ success := false,
           error := some "Only SELECT and WITH queries are allowed for security reasons" }, []) :=
  ⟨by decide, executeQuery_gate_rejects _ _ (by decide)⟩

/-- C10: acceptance is a pure character-prefix test: every string whose
trimmed lower-cased text begins with the characters `select` or `with` —
also as a mere prefix of a longer word, `withdraw …`, `selection …` — is
dispatched to the external rpc service (log `[sql]`). -/
theorem executeQuery_gate_is_character_prefix_only (rpc : String → RpcOutcome) (sql : String)
    (h : (jsStartsWith (jsToLower (jsTrim sql)) "select"
          || jsStartsWith (jsToLower (jsTrim sql)) "with") = true) :
    (executeQuery rpc sql).2 = [sql] := by
  simp only [executeQuery, h, Bool.not_true, if_neg]
  cases rpc sql <;> simp

/-- Witness for C10: `"withdraw all funds"` and `"SELECTION committee"`
pass the prefix gate and reach the rpc service. -/
theorem executeQuery_gate_is_character_prefix_only_witness :
    ((jsStartsWith (jsToLower (jsTrim "withdraw all funds")) "select"
       || jsStartsWith (jsToLower (jsTrim "withdraw all funds")) "with") = true ∧
     (executeQuery (fun _ => RpcOutcome.ok none) "withdraw all funds").2
       = ["withdraw all funds"]) ∧
    ((jsStartsWith (jsToLower (jsTrim "SELECTION committee")) "select"
       || jsStartsWith (jsToLower (jsTrim "SELECTION committee")) "with") = true ∧
     (executeQuery (fun _ => RpcOutcome.ok none) "SELECTION committee").2
       = ["SELECTION committee"]) :=
  ⟨⟨by decide, executeQuery_gate_is_character_prefix_only _ _ (by decide)⟩,
   ⟨by decide, executeQuery_gate_is_character_prefix_only _ _ (by decide)⟩⟩

/-- C8: `getDetailedSchemaFromRepository` returns exactly the loaded
entries whose table name equals some requested name case-insensitively
(the repository filtered by that test, so order and multiplicity come from
the repository); requested names with no match are silently dropped — the
function is total, no error path. -/
theorem getDetailedSchemaFromRepository_exact_case_insensitive
    (repo : List DetailedTableSchema) (tables : List String) :
    getDetailedSchemaFromRepository repo tables
      = repo.filter (fun e => decide (∃ t ∈ tables, jsToLower t = jsToLower e.table)) ∧
    ∀ e : DetailedTableSchema,
      e ∈ getDetailedSchemaFromRepository repo tables ↔
        e ∈ repo ∧ ∃ t ∈ tables, jsToLower t = jsToLower e.table := by
  have hpt : ∀ e : DetailedTableSchema,
      ((tables.map (fun t => jsToLower t)).contains (jsToLower e.table))
        = decide (∃ t ∈ tables, jsToLower t = jsToLower e.table) := by
    intro e
    rw [Bool.eq_iff_iff]
    simp [List.contains_iff_exists_mem_beq, eq_comm]
  constructor
  · unfold getDetailedSchemaFromRepository
    exact List.filter_congr (fun e _ => hpt e)
  · intro e
    unfold getDetailedSchemaFromRepository
    rw [List.mem_filter, hpt e]
    simp

/-! ### Concrete environments and oracles used by witnesses -/

/-- A minimal environment: `JSON.parse` recognizes only the two-character
empty-object text; empty schema repository; rpc succeeds with null data;
null worldview map. -/
def envEmptyObjParse : OrchEnv :=
  { jsonParse := fun s => if s = "\x7b\x7d" then some (.obj []) else none,
    detailedSchema := [],
    rpc := fun _ => .ok none,
    worldviewMap := .null }

/-- An LLM that always answers with the empty-object JSON text. -/
def oracleEmptyObjText : Nat → FetchOutcome :=
  fun _ => .ok [{ text := some "\x7b\x7d" }]

/-- An LLM that requests `execute_sql` on every turn. -/
def oracleAlwaysSql : Nat → FetchOutcome :=
  fun _ => .ok [{ functionCall := some ⟨"execute_sql", some (.obj [("sql", .str "select 1")])⟩ }]

/-- An LLM that asks a clarifying question on every turn. -/
def oracleClarify : Nat → FetchOutcome :=
  fun _ =>
    .ok [{ functionCall := some ⟨"ask_clarifying_question", some (.obj [("question", .str "Which year?")])⟩ }]

/-- An LLM that calls `get_detailed_schema` with empty arguments (no
`tables` array). -/
def oracleBadSchemaArgs : Nat → FetchOutcome :=
  fun _ => .ok [{ functionCall := some ⟨"get_detailed_schema", some (.obj [])⟩ }]

/-- An LLM that calls the undeclared tool `refine_query` first, then
answers with the empty-object text. -/
def oracleUnknownTool : Nat → FetchOutcome :=
  fun n => if n = 0
    then .ok [{ functionCall := some ⟨"refine_query", some (.obj [("new_question", .str "more specific")])⟩ }]
    else .ok [{ text := some "\x7b\x7d" }]

/-- An LLM that answers with plain non-JSON prose. -/
def oracleOops : Nat → FetchOutcome :=
  fun _ => .ok [{ text := some "oops, plain text" }]

/-- C1: every run makes at most `MAX_TURNS = 6` round-trips to the LLM
(the request log is never longer), and against an LLM that requests a
tool on every turn the run still returns — the max-turns outcome, after
exactly `MAX_TURNS` round-trips. Termination itself is by construction:
the loop is structural recursion on the bounded counter. -/
theorem orchestrator_terminates_within_MAX_TURNS
    (env : OrchEnv) (oracle : Nat → FetchOutcome) (question : String)
    (initialHistory : List Turn) :
    (naturalLanguageQueryOrchestrator env oracle question initialHistory).2.length ≤ MAX_TURNS ∧
    ((∀ n, continuesWithTool env (oracle n)) →
      (∃ t, (naturalLanguageQueryOrchestrator env oracle question initialHistory).1
          = .ok (.maxTurnsReached t)) ∧
      (naturalLanguageQueryOrchestrator env oracle question initialHistory).2.length
        = MAX_TURNS) := by
  exact ⟨orchLoop_log_length_le env oracle MAX_TURNS 0 _,
    fun h => orchLoop_always_tool env oracle h MAX_TURNS 0 _⟩

/-- Witness for C1: an LLM that calls `execute_sql` on every turn drives
the run to the max-turns outcome after exactly six round-trips. -/
theorem orchestrator_terminates_within_MAX_TURNS_witness :
    (∀ n, continuesWithTool envEmptyObjParse (oracleAlwaysSql n)) ∧
    (naturalLanguageQueryOrchestrator envEmptyObjParse oracleAlwaysSql "How many rows?" []).2.length
      ≤ MAX_TURNS ∧
    (∃ t, (naturalLanguageQueryOrchestrator envEmptyObjParse oracleAlwaysSql "How many rows?" []).1
        = .ok (.maxTurnsReached t)) ∧
    (naturalLanguageQueryOrchestrator envEmptyObjParse oracleAlwaysSql "How many rows?" []).2.length
      = MAX_TURNS := by
  have hc : ∀ n, continuesWithTool envEmptyObjParse (oracleAlwaysSql n) :=
    fun n => ⟨_, _, _, rfl, rfl, rfl⟩
  have h := orchestrator_terminates_within_MAX_TURNS envEmptyObjParse oracleAlwaysSql
    "How many rows?" []
  exact ⟨hc, h.1, (h.2 hc).1, (h.2 hc).2⟩

/-- C7: the history is append-only — each request sent to the LLM carries
the previous request's contents plus exactly one appended turn (the
serialized tool result); nothing is removed, replaced or reordered, so
content length is monotonically non-decreasing across round-trips. -/
theorem orchestrator_history_append_only
    (env : OrchEnv) (oracle : Nat → FetchOutcome) (question : String)
    (initialHistory : List Turn) :
    List.Chain' (fun a b : RequestBody => ∃ t, b.contents = a.contents ++ [t])
      (naturalLanguageQueryOrchestrator env oracle question initialHistory).2 := by
  exact orchLoop_log_append_only env oracle MAX_TURNS 0 _

/-- C3: if the first tool call of the LLM response is
`ask_clarifying_question` with arguments `\x7b question: q \x7d`, the run
returns the clarification outcome carrying exactly `q` at once — one
logged request, no appended turn, no further LLM calls — and
`ask_clarifying_question` is the only tool whose dispatch yields the
loop-terminating outcome. -/
theorem ask_clarifying_question_terminates_immediately
    (env : OrchEnv) (oracle : Nat → FetchOutcome) (fuel turn : Nat) (hist : List Turn)
    (parts : List Part) (call : FunctionCall) (q : String)
    (hf : 0 < fuel)
    (hor : oracle turn = .ok parts)
    (hfirst : firstToolCall parts = some call)
    (hname : call.name = "ask_clarifying_question")
    (hargs : call.args = some (.obj [("question", .str q)])) :
    orchLoop env oracle fuel turn hist
      = (.ok (.clarificationNeeded (some (.str q))), [mkRequestBody hist]) ∧
    ∀ (env2 : OrchEnv) (c : FunctionCall) (t : Option Json),
      dispatchTool env2 c = .ok (.clarify t) → c.name = "ask_clarifying_question" := by
  constructor
  · obtain ⟨n, rfl⟩ : ∃ n, fuel = n + 1 := ⟨fuel - 1, by omega⟩
    have hdisp : dispatchTool env call = .ok (.clarify (some (.str q))) := by
      unfold dispatchTool
      rw [hname, hargs]
      simp [jsGetField, Json.getField, List.lookup]
    rw [orchLoop_succ]
    simp only [hor, hfirst, hdisp]
  · intro env2 c t hdisp
    unfold dispatchTool at hdisp
    split_ifs at hdisp with h1 h2 h3
    · exfalso
      split at hdisp
      · simp at hdisp
      · split at hdisp <;> simp at hdisp
      · simp at hdisp
    · exfalso
      split at hdisp <;> simp at hdisp
    · exact h3
    · simp at hdisp

/-- Witness for C3: a concrete run whose first LLM response asks
`Which year?` terminates at once with that question. -/
theorem ask_clarifying_question_terminates_immediately_witness :
    (0:Nat) < 6 ∧
    orchLoop envEmptyObjParse oracleClarify 6 0 [{ role := "user", text := "Q" }]
      = (.ok (.clarificationNeeded (some (.str "Which year?"))),
         [mkRequestBody [{ role := "user", text := "Q" }]]) :=
  ⟨by decide,
   (ask_clarifying_question_terminates_immediately envEmptyObjParse oracleClarify 6 0
      [{ role := "user", text := "Q" }]
      [{ functionCall :=
        some ⟨"ask_clarifying_question", some (.obj [("question", .str "Which year?")])⟩ }]
      ⟨"ask_clarifying_question", some (.obj [("question", .str "Which year?")])⟩
      "Which year?" (by decide) rfl rfl rfl rfl).1⟩

/-- C5: a response with no tool call whose concatenated text does not
parse as JSON ends the run at once with the protocol-error outcome; the
`raw` field of the returned object carries that text verbatim. -/
theorem non_json_final_returns_protocol_error
    (env : OrchEnv) (oracle : Nat → FetchOutcome) (fuel turn : Nat) (hist : List Turn)
    (parts : List Part)
    (hf : 0 < fuel)
    (hor : oracle turn = .ok parts)
    (hnotool : firstToolCall parts = none)
    (hparse : env.jsonParse (lastResponseTextOf parts) = none) :
    orchLoop env oracle fuel turn hist
      = (.ok (.protocolError (lastResponseTextOf parts)), [mkRequestBody hist]) ∧
    (OrchResult.protocolError (lastResponseTextOf parts)).toJson.getField "raw"
      = some (.str (lastResponseTextOf parts)) := by
  constructor
  · obtain ⟨n, rfl⟩ : ∃ n, fuel = n + 1 := ⟨fuel - 1, by omega⟩
    rw [orchLoop_succ]
    simp only [hor, hnotool, hparse]
  · rfl

/-- Witness for C5: the prose answer `oops, plain text` yields the
protocol-error outcome with the text preserved verbatim in `raw`. -/
theorem non_json_final_returns_protocol_error_witness :
    envEmptyObjParse.jsonParse (lastResponseTextOf [{ text := some "oops, plain text" }]) = none ∧
    (orchLoop envEmptyObjParse oracleOops 6 0 []
       = (.ok (.protocolError (lastResponseTextOf [{ text := some "oops, plain text" }])),
          [mkRequestBody []]) ∧
     (OrchResult.protocolError
        (lastResponseTextOf [{ text := some "oops, plain text" }])).toJson.getField "raw"
       = some (.str (lastResponseTextOf [{ text := some "oops, plain text" }]))) :=
  ⟨rfl, non_json_final_returns_protocol_error envEmptyObjParse oracleOops 6 0 []
    [{ text := some "oops, plain text" }] (by decide) rfl rfl rfl⟩

/-- C6 (amended): a response with no tool call whose concatenated text
parses as JSON value `v` ends the run with the final-answer outcome, and
that outcome's returned JS value is `v` itself — the parsed JSON is
returned unwrapped, not tagged. Every non-throwing invocation yields one
of the four result variants. -/
theorem final_answer_returns_parsed_value
    (env : OrchEnv) (oracle : Nat → FetchOutcome) (fuel turn : Nat) (hist : List Turn)
    (parts : List Part) (v : Json)
    (hf : 0 < fuel)
    (hor : oracle turn = .ok parts)
    (hnotool : firstToolCall parts = none)
    (hparse : env.jsonParse (lastResponseTextOf parts) = some v) :
    orchLoop env oracle fuel turn hist
      = (.ok (.finalAnswer v), [mkRequestBody hist]) ∧
    OrchResult.toJson (.finalAnswer v) = v ∧
    ∀ r : OrchResult,
      (∃ w, r = .finalAnswer w) ∨ (∃ t, r = .clarificationNeeded t) ∨
      (∃ t, r = .maxTurnsReached t) ∨ (∃ raw, r = .protocolError raw) := by
  refine ⟨?_, rfl, ?_⟩
  · obtain ⟨n, rfl⟩ : ∃ n, fuel = n + 1 := ⟨fuel - 1, by omega⟩
    rw [orchLoop_succ]
    simp only [hor, hnotool, hparse]
  · intro r
    cases r with
    | finalAnswer w => exact .inl ⟨w, rfl⟩
    | clarificationNeeded t => exact .inr (.inl ⟨t, rfl⟩)
    | maxTurnsReached t => exact .inr (.inr (.inl ⟨t, rfl⟩))
    | protocolError raw => exact .inr (.inr (.inr ⟨raw, rfl⟩))

/-- Witness for C6's amended claim: an empty-object JSON answer is
returned as the parsed empty object itself. -/
theorem final_answer_returns_parsed_value_witness :
    envEmptyObjParse.jsonParse (lastResponseTextOf [{ text := some "\x7b\x7d" }])
      = some (.obj []) ∧
    orchLoop envEmptyObjParse oracleEmptyObjText 6 0 []
      = (.ok (.finalAnswer (.obj [])), [mkRequestBody []]) :=
  ⟨rfl, (final_answer_returns_parsed_value envEmptyObjParse oracleEmptyObjText 6 0 []
    [{ text := some "\x7b\x7d" }] (.obj []) (by decide) rfl rfl rfl).1⟩

/-- Counterexample to C6 as stated: the parse-success outcome is not a
tagged `FinalAnswer` object with an `analysis` member — the run below ends
with the parsed value `\x7b\x7d` itself, whose returned JS value has no
`analysis` member (and no `status` tag). -/
theorem final_answer_not_tagged_counterexample :
    (naturalLanguageQueryOrchestrator envEmptyObjParse oracleEmptyObjText "q" []).1
      = .ok (.finalAnswer (.obj [])) ∧
    Json.getField (OrchResult.toJson (.finalAnswer (.obj []))) "analysis" = none ∧
    Json.getField (OrchResult.toJson (.finalAnswer (.obj []))) "status" = none :=
  ⟨rfl, rfl, rfl⟩

/-- The names of the tools declared in one request body. -/
def declaredToolNames (b : RequestBody) : List String :=
  (b.tools.map (fun g => g.functionDeclarations.map ToolDecl.name)).flatten

/-- C4 (amended): every request the orchestrator sends carries the system
instruction first, then the full history, the fixed generation parameters,
and the declarations of exactly the three tools built in `route.ts` —
`get_detailed_schema`, `execute_sql`, `ask_clarifying_question`.
(`refine_query` exists only in the unused `aiTools` module.) -/
theorem requests_carry_system_history_config_three_tools
    (env : OrchEnv) (oracle : Nat → FetchOutcome) (question : String)
    (initialHistory : List Turn) (b : RequestBody)
    (hb : b ∈ (naturalLanguageQueryOrchestrator env oracle question initialHistory).2) :
    b.tools = toolDeclarations ∧
    declaredToolNames b = ["get_detailed_schema", "execute_sql", "ask_clarifying_question"] ∧
    b.generationConfig = generationConfig ∧
    b.contents.head? = some systemInstruction := by
  obtain ⟨h, rfl⟩ := orchLoop_log_shape env oracle MAX_TURNS 0 _ b hb
  exact ⟨rfl, rfl, rfl, rfl⟩

/-- The first request body of the one-turn witness run. -/
def witnessBody : RequestBody :=
  mkRequestBody [{ role := "user", text := "Worldview Map: null\nQuestion: q" }]

/-- Witness for C4's amended claim, on a concrete one-request run. -/
theorem requests_carry_system_history_config_three_tools_witness :
    witnessBody ∈ (naturalLanguageQueryOrchestrator envEmptyObjParse oracleEmptyObjText "q" []).2 ∧
    (witnessBody.tools = toolDeclarations ∧
     declaredToolNames witnessBody
       = ["get_detailed_schema", "execute_sql", "ask_clarifying_question"] ∧
     witnessBody.generationConfig = generationConfig ∧
     witnessBody.contents.head? = some systemInstruction) := by
  have hb : witnessBody
      ∈ (naturalLanguageQueryOrchestrator envEmptyObjParse oracleEmptyObjText "q" []).2 := by
    have hlog : (naturalLanguageQueryOrchestrator envEmptyObjParse oracleEmptyObjText "q" []).2
        = [witnessBody] := rfl
    rw [hlog]
    exact List.mem_singleton.mpr rfl
  exact ⟨hb, requests_carry_system_history_config_three_tools envEmptyObjParse
    oracleEmptyObjText "q" [] witnessBody hb⟩

/-- Counterexample to C4 as stated: the orchestrator's requests declare
only three tools — `refine_query` is absent from every outgoing request,
although it is declared in the (unused) `aiTools` module. -/
theorem refine_query_not_declared_counterexample :
    (naturalLanguageQueryOrchestrator envEmptyObjParse oracleEmptyObjText "q" []).2.map
        declaredToolNames
      = [["get_detailed_schema", "execute_sql", "ask_clarifying_question"]] ∧
    "refine_query" ∉ (["get_detailed_schema", "execute_sql", "ask_clarifying_question"] : List String) ∧
    "refine_query" ∈ aiTools.map FunctionDeclaration.name :=
  ⟨rfl, by decide, by decide⟩

/-- The history turn appended after an unknown-tool call. -/
def unknownToolTurn (toolName : String) : Turn :=
  { role := "model",
    text := Json.stringify (.obj [("error", .str ("Unknown tool: " ++ toolName))]) }

/-- C9 (amended): an unknown tool name is captured as an appended
error turn and the loop continues, and a non-JSON final answer becomes
the typed protocol-error outcome; but a `get_detailed_schema` call whose
arguments lack the `tables` array throws a TypeError that escapes the
orchestrator uncaught. -/
theorem orchestrator_anomaly_handling :
    (∀ (env : OrchEnv) (oracle : Nat → FetchOutcome) (fuel turn : Nat)
       (hist : List Turn) (parts : List Part) (call : FunctionCall),
       oracle turn = .ok parts → firstToolCall parts = some call →
       call.name ≠ "get_detailed_schema" → call.name ≠ "execute_sql" →
       call.name ≠ "ask_clarifying_question" →
       orchLoop env oracle (fuel + 1) turn hist
         = ((orchLoop env oracle fuel (turn + 1) (hist ++ [unknownToolTurn call.name])).1,
            mkRequestBody hist ::
              (orchLoop env oracle fuel (turn + 1) (hist ++ [unknownToolTurn call.name])).2)) ∧
    (∀ (env : OrchEnv) (oracle : Nat → FetchOutcome) (fuel turn : Nat)
       (hist : List Turn) (parts : List Part) (call : FunctionCall) (a : Json),
       oracle turn = .ok parts → firstToolCall parts = some call →
       call.name = "get_detailed_schema" → call.args = some a →
       a.getField "tables" = none →
       orchLoop env oracle (fuel + 1) turn hist
         = (.error "TypeError: tables.map is not a function", [mkRequestBody hist])) ∧
    (∀ (env : OrchEnv) (oracle : Nat → FetchOutcome) (fuel turn : Nat)
       (hist : List Turn) (parts : List Part),
       oracle turn = .ok parts → firstToolCall parts = none →
       env.jsonParse (lastResponseTextOf parts) = none →
       orchLoop env oracle (fuel + 1) turn hist
         = (.ok (.protocolError (lastResponseTextOf parts)), [mkRequestBody hist])) := by
  refine ⟨?_, ?_, ?_⟩
  · intro env oracle fuel turn hist parts call hor hfirst h1 h2 h3
    have hdisp : dispatchTool env call
        = .ok (.toolResult (Json.stringify (.obj [("error",
            .str ("Unknown tool: " ++ call.name))]))) := by
      unfold dispatchTool
      rw [if_neg h1, if_neg h2, if_neg h3]
    rw [orchLoop_succ]
    simp only [hor, hfirst, hdisp]
    rfl
  · intro env oracle fuel turn hist parts call a hor hfirst hname hargs htables
    have hdisp : dispatchTool env call
        = .error "TypeError: tables.map is not a function" := by
      unfold dispatchTool
      rw [if_pos hname, hargs]
      simp [jsGetField, htables]
    rw [orchLoop_succ]
    simp only [hor, hfirst, hdisp]
  · intro env oracle fuel turn hist parts hor hnotool hparse
    rw [orchLoop_succ]
    simp only [hor, hnotool, hparse]

/-- Witness for C9's amended claim: a `refine_query` call continues the
loop with an appended error turn; empty `get_detailed_schema` arguments
throw; plain prose becomes the typed protocol error. -/
theorem orchestrator_anomaly_handling_witness :
    (orchLoop envEmptyObjParse oracleUnknownTool 6 0 []
       = ((orchLoop envEmptyObjParse oracleUnknownTool 5 1 ([] ++ [unknownToolTurn "refine_query"])).1,
          mkRequestBody [] ::
            (orchLoop envEmptyObjParse oracleUnknownTool 5 1
              ([] ++ [unknownToolTurn "refine_query"])).2)) ∧
    (orchLoop envEmptyObjParse oracleBadSchemaArgs 6 0 []
       = (.error "TypeError: tables.map is not a function", [mkRequestBody []])) ∧
    (orchLoop envEmptyObjParse oracleOops 6 0 []
       = (.ok (.protocolError (lastResponseTextOf [{ text := some "oops, plain text" }])),
          [mkRequestBody []])) := by
  have h := orchestrator_anomaly_handling
  exact ⟨h.1 envEmptyObjParse oracleUnknownTool 5 0 []
      [{ functionCall := some ⟨"refine_query", some (.obj [("new_question", .str "more specific")])⟩ }]
      ⟨"refine_query", some (.obj [("new_question", .str "more specific")])⟩
      rfl rfl (by decide) (by decide) (by decide),
    h.2.1 envEmptyObjParse oracleBadSchemaArgs 5 0 []
      [{ functionCall := some ⟨"get_detailed_schema", some (.obj [])⟩ }]
      ⟨"get_detailed_schema", some (.obj [])⟩ (.obj []) rfl rfl rfl rfl rfl,
    h.2.2 envEmptyObjParse oracleOops 5 0 [] [{ text := some "oops, plain text" }] rfl rfl rfl⟩

/-- Counterexample to C9 as stated: a `get_detailed_schema` call whose
arguments lack the `tables` array is not captured as typed data — the run
ends with a thrown TypeError escaping the orchestrator. -/
theorem malformed_schema_args_throw_counterexample :
    (naturalLanguageQueryOrchestrator envEmptyObjParse oracleBadSchemaArgs "q" []).1
      = .error "TypeError: tables.map is not a function" := rfl

end NoorChat
